import Mathlib

/-!
# Shift scheduling & handover subsystem — shallow embedding

Embedding of `src/PWID/services/shifts_routes.py`,
`src/PWID/services/handover_engine.py` and `src/PWID/risk_engine.py`.
Time instants are natural numbers; the Python code stores shift bounds as
ISO-8601 strings and compares them lexicographically, which on uniformly
formatted strings agrees with chronological order, so `Nat` with `≤`/`<`
is a faithful rendering.  The SQLAlchemy store is a record of lists kept in
insertion order (SQLAlchemy `.first()` without `order_by` on SQLite returns
the lowest rowid, i.e. the first inserted match); autoincremented primary
keys are modelled by explicit counters.
-/

namespace CTC

/-- Modelled from the spec: the `Shift` model class is absent from the
`models.py` snapshot (only its callers are present); fields follow the
spec's data model (§3) and every use site in `shifts_routes.py` /
`handover_engine.py`.  `status` is the literal string stored by the code:
"Scheduled", "Active", "Completed" or "Emergency-Reassigned";
`assigned_pwids` is the many-to-many join to recipients, as a list of
recipient ids. -/
structure Shift where
  id : Nat
  type : String
  start_time : Nat
  end_time : Nat
  caregiver_id : Nat
  status : String
  assigned_pwids : List Nat
deriving Repr, DecidableEq

/-- Care recipient (`class PWID` in `models.py`): only the fields the
shift/handover subsystem reads. -/
structure PWID where
  id : Nat
  full_name : String
  is_active : Bool
deriving Repr, DecidableEq

/-- `class Routinelog` in `models.py`; `created_at` is the timestamp. -/
structure Routinelog where
  id : Nat
  pwid_id : Nat
  sleep_quality : String
  meals : String
  medication_given : String
  mood : String
  activity_done : String
  incident : String
  notes : String
  created_at : Nat
deriving Repr, DecidableEq

/-- `class Task` in `models.py`: fields read by the handover engine. -/
structure Task where
  id : Nat
  pwid_id : Nat
  title : String
  status : String
deriving Repr, DecidableEq

/-- The `summary_content` dict built by `generate_handover_summary`. -/
structure SummaryContent where
  sleep_quality : String
  meals_summary : String
  mood_trend : List String
  incidents : List String
  pending_tasks : List String
  risk_level : String
  risk_justification : String
deriving Repr, DecidableEq

/-- Modelled from the spec: the `HandoverSummary` model class is absent
from the `models.py` snapshot; per the spec (§3) it carries an identity, a
shift reference, a recipient reference and the content record, keyed by
(shift_id, pwid_id). -/
structure HandoverSummary where
  id : Nat
  shift_id : Nat
  pwid_id : Nat
  content : SummaryContent
deriving Repr, DecidableEq

/-- The backing store: one list per table, in insertion order, plus the
autoincrement counters for the two tables this subsystem inserts into. -/
structure DB where
  shifts : List Shift
  pwids : List PWID
  routinelogs : List Routinelog
  tasks : List Task
  summaries : List HandoverSummary
  next_shift_id : Nat
  next_summary_id : Nat
deriving Repr, DecidableEq

/-! ## Interval checks as written in the code -/

/-- The three-case overlap filter of `create_shift` (shifts_routes.py
lines 22-26), applied to an existing shift `s` against the requested
window `[start_time, end_time]`:
`(s.start <= start AND s.end > start) OR (s.start < end AND s.end >= end)
 OR (s.start >= start AND s.end <= end)`. -/
def caregiverOverlapCheck (s : Shift) (start_time end_time : Nat) : Bool :=
  (decide (s.start_time ≤ start_time) && decide (s.end_time > start_time)) ||
  (decide (s.start_time < end_time) && decide (s.end_time ≥ end_time)) ||
  (decide (s.start_time ≥ start_time) && decide (s.end_time ≤ end_time))

/-- The two-case overlap filter of `assign_pwids` (shifts_routes.py
lines 72-75), applied to an existing shift `s` against the target
`shift`'s window:
`(s.start <= t.start AND s.end > t.start) OR (s.start < t.end AND s.end >= t.end)`. -/
def assignOverlapCheck (s t : Shift) : Bool :=
  (decide (s.start_time ≤ t.start_time) && decide (s.end_time > t.start_time)) ||
  (decide (s.start_time < t.end_time) && decide (s.end_time ≥ t.end_time))

/-- Canonical open-interval overlap predicate mandated by the spec (§4.1):
`a_start < b_end AND b_start < a_end`; boundary-touching is not overlap.
Stated from the spec's words, for comparison with the code's checks. -/
def overlapOpen (a_start a_end b_start b_end : Nat) : Prop :=
  a_start < b_end ∧ b_start < a_end

instance (a b c d : Nat) : Decidable (overlapOpen a b c d) := by
  unfold overlapOpen; infer_instance

/-! ## create_shift -/

/-- The JSON body accepted by `POST /shifts/create`: `assigned_pwids` is
`some ids` when the key is present (`'assigned_pwids' in data`). -/
structure CreateShiftRequest where
  caregiver_id : Nat
  type : String
  start_time : Nat
  end_time : Nat
  assigned_pwids : Option (List Nat)
deriving Repr, DecidableEq

inductive CreateShiftResult where
  /-- HTTP 201 with the new shift. -/
  | created (shift_id : Nat)
  /-- HTTP 409 "Overlap detected", naming the colliding shift. -/
  | conflict (overlapping_shift_id : Nat)
deriving Repr, DecidableEq

/-- The `Shift.query.filter(...).first()` lookup of `create_shift`:
first stored shift of the caregiver, status Scheduled or Active, passing
the three-case overlap filter. -/
def findCaregiverOverlap (db : DB) (caregiver_id start_time end_time : Nat) :
    Option Shift :=
  (db.shifts.filter (fun s =>
    decide (s.caregiver_id = caregiver_id) &&
    (s.status == "Scheduled" || s.status == "Active") &&
    caregiverOverlapCheck s start_time end_time)).head?

/-- `create_shift` (shifts_routes.py lines 9-56).  On overlap: 409, no
write.  Otherwise a new shift with status "Scheduled" is persisted; when
`assigned_pwids` is given, exactly the requested ids that exist in the
PWID table are attached (`PWID.query.filter(PWID.id.in_(...)).all()`) —
the code performs no availability check on them. -/
def create_shift (db : DB) (data : CreateShiftRequest) : DB × CreateShiftResult :=
  match findCaregiverOverlap db data.caregiver_id data.start_time data.end_time with
  | some overlapping => (db, .conflict overlapping.id)
  | none =>
    let assigned : List Nat :=
      match data.assigned_pwids with
      | some ids => (db.pwids.filter (fun p => ids.contains p.id)).map PWID.id
      | none => []
    let new_shift : Shift :=
      { id := db.next_shift_id
        type := data.type
        start_time := data.start_time
        end_time := data.end_time
        caregiver_id := data.caregiver_id
        status := "Scheduled"
        assigned_pwids := assigned }
    ({ db with
        shifts := db.shifts ++ [new_shift]
        next_shift_id := db.next_shift_id + 1 },
     .created new_shift.id)

/-! ## assign_pwids -/

inductive AssignResult where
  /-- `get_or_404` failed: no shift with the given id. -/
  | notFound
  /-- HTTP 409 "Double Assignment", naming the recipient and the colliding shift. -/
  | doubleAssignment (pwid_id : Nat) (overlapping_shift_id : Nat)
  /-- HTTP 200 "PWIDs assigned successfully". -/
  | assigned
deriving Repr, DecidableEq

/-- The per-recipient join query of `assign_pwids` (lines 68-76): first
stored shift other than the target that contains the recipient, has
status Scheduled or Active, and passes the two-case overlap filter
against the target shift's window. -/
def findOverlappingAssignment (db : DB) (t : Shift) (pwid_id : Nat) : Option Shift :=
  (db.shifts.filter (fun s =>
    s.assigned_pwids.contains pwid_id &&
    decide (s.id ≠ t.id) &&
    (s.status == "Scheduled" || s.status == "Active") &&
    assignOverlapCheck s t)).head?

/-- The `for pwid in pwids` validation loop of `assign_pwids`: the first
recipient with an overlapping assignment, paired with the colliding
shift's id. -/
def firstDoubleAssignment (db : DB) (t : Shift) : List PWID → Option (Nat × Nat)
  | [] => none
  | p :: rest =>
    match findOverlappingAssignment db t p.id with
    | some s => some (p.id, s.id)
    | none => firstDoubleAssignment db t rest

/-- `assign_pwids` (shifts_routes.py lines 58-90): looks up the shift,
resolves the requested ids to existing PWID rows, validates each one with
the two-case filter, and only if none conflicts extends the shift's
recipient list with all of them — any single conflict aborts the whole
batch before any write. -/
def assign_pwids (db : DB) (shift_id : Nat) (pwid_ids : List Nat) :
    DB × AssignResult :=
  match db.shifts.find? (fun s => s.id == shift_id) with
  | none => (db, .notFound)
  | some t =>
    let pwids := db.pwids.filter (fun p => pwid_ids.contains p.id)
    match firstDoubleAssignment db t pwids with
    | some (pid, sid) => (db, .doubleAssignment pid sid)
    | none =>
      ({ db with shifts := db.shifts.map (fun s =>
          if s.id = t.id
          then { s with assigned_pwids := s.assigned_pwids ++ pwids.map PWID.id }
          else s) },
       .assigned)

/-! ## Lazy activation (listing endpoints) -/

/-- The read-time status correction shared by `get_active_shifts` and
`get_all_shifts`: a Scheduled shift whose window contains `now`
(`start_time <= now` and `end_time >= now`) becomes Active; every other
shift is untouched. -/
def activateShift (now : Nat) (s : Shift) : Shift :=
  if decide (s.start_time ≤ now) && decide (s.end_time ≥ now) &&
      s.status == "Scheduled"
  then { s with status := "Active" }
  else s

/-- `get_active_shifts` (shifts_routes.py lines 92-109): selects shifts
with `start_time <= now <= end_time` and status ≠ "Completed", flips the
Scheduled ones to Active, and returns the selected shifts (post-flip). -/
def get_active_shifts (db : DB) (now : Nat) : DB × List Shift :=
  let shifts' := db.shifts.map (activateShift now)
  ({ db with shifts := shifts' },
   shifts'.filter (fun s =>
     decide (s.start_time ≤ now) && decide (s.end_time ≥ now) &&
     !(s.status == "Completed")))

/-- `get_all_shifts` (shifts_routes.py lines 111-128): flips Scheduled
shifts whose window contains `now` to Active, then returns all shifts
(the route orders them by descending start_time; ordering is not modelled
as no claim concerns it). -/
def get_all_shifts (db : DB) (now : Nat) : DB × List Shift :=
  let shifts' := db.shifts.map (activateShift now)
  ({ db with shifts := shifts' }, shifts')

/-! ## validate_coverage -/

/-- The per-recipient covering-shift query of `validate_coverage`
(lines 142-147): first shift containing the recipient, Scheduled or
Active, with `start_time <= window.start` and `end_time >= window.end`. -/
def findCoveringShift (db : DB) (pwid_id start_time end_time : Nat) : Option Shift :=
  (db.shifts.filter (fun s =>
    s.assigned_pwids.contains pwid_id &&
    (s.status == "Scheduled" || s.status == "Active") &&
    decide (s.start_time ≤ start_time) && decide (s.end_time ≥ end_time))).head?

/-- `validate_coverage` (shifts_routes.py lines 130-155): for every active
recipient, report those without a covering Scheduled/Active shift.  The
route runs only queries; the store is returned unchanged. -/
def validate_coverage (db : DB) (start_time end_time : Nat) : DB × List Nat :=
  (db,
   ((db.pwids.filter (fun p => p.is_active)).filter (fun p =>
      (findCoveringShift db p.id start_time end_time).isNone)).map PWID.id)

/-! ## Risk engine (`src/PWID/risk_engine.py`) -/

/-- `score_mood`: dict lookup with default 1. -/
def score_mood (mood : String) : Nat :=
  if mood == "Calm" then 0
  else if mood == "Happy" then 0
  else if mood == "Anxious" then 2
  else if mood == "Irritable" then 3
  else if mood == "Aggressive" then 5
  else if mood == "Unknown" then 1
  else 1

/-- `score_sleep`: dict lookup with default 1. -/
def score_sleep (sleep : String) : Nat :=
  if sleep == "Good" then 0
  else if sleep == "Disturbed" then 1
  else if sleep == "Poor" then 2
  else if sleep == "Unknown" then 1
  else 1

/-- `score_meals`: dict lookup with default 1. -/
def score_meals (meals : String) : Nat :=
  if meals == "Normal" then 0
  else if meals == "Reduced" then 1
  else if meals == "Skipped" then 2
  else if meals == "Unknown" then 1
  else 1

/-- `score_incident`: dict lookup with default 2. -/
def score_incident (incident : String) : Nat :=
  if incident == "None" then 0
  else if incident == "Minor" then 3
  else if incident == "Concerning" then 6
  else if incident == "Unknown" then 2
  else 2

/-- Python `str.lower()` (ASCII data in this code base). -/
def pyLower (s : String) : String := s.toLower

/-- Python `str.capitalize()`: first character uppercased, the rest
lowercased (unlike Lean's `String.capitalize`, which leaves the tail). -/
def pyCapitalize (s : String) : String :=
  match s.data with
  | [] => ""
  | c :: rest => String.mk (c.toUpper :: rest.map Char.toLower)

/-- Result record of `calculate_single_risk`: the dict
`{level, score, reason, factors: {mood, sleep, meals}}`. -/
structure SingleRisk where
  level : String
  score : Nat
  reason : String
  factors_mood : String
  factors_sleep : String
  factors_meals : String
deriving Repr, DecidableEq

/-- `calculate_single_risk` on a `Routinelog` row (the non-dict branch):
sums the four factor scores, levels at ≥ 8 High / ≥ 4 Medium / else Low,
and assembles the reason sentence. -/
def calculate_single_risk (observation : Routinelog) : SingleRisk :=
  let mood := observation.mood
  let sleep := observation.sleep_quality
  let meals := observation.meals
  let incident := observation.incident
  let score := score_mood mood + score_sleep sleep + score_meals meals +
    score_incident incident
  let level := if score ≥ 8 then "High" else if score ≥ 4 then "Medium" else "Low"
  let reason : List String :=
    (if !(mood == "Calm" || mood == "Happy") then [pyLower mood ++ " mood"] else []) ++
    (if sleep == "Poor" || sleep == "Disturbed" then [pyLower sleep ++ " sleep"] else []) ++
    (if meals == "Skipped" || meals == "Reduced" then [pyLower meals ++ " meals"] else []) ++
    (if !(incident == "None") && !(incident == "no") then ["incident reported"] else [])
  let explanation :=
    if !reason.isEmpty
    then pyCapitalize (String.intercalate ", " reason) ++ " observed."
    else "Stable condition."
  { level := level, score := score, reason := explanation,
    factors_mood := mood, factors_sleep := sleep, factors_meals := meals }

/-- Result record of `calculate_trend_risk`: the dict
`{level, score, reason, details, factors: {mood, sleep}}`.  The
Python `score` is `round(total/len, 2)` computed on floats; it is
modelled as the exact rational `total/len` (the rounding, and floats in
general, are outside the embedding; no caller of the shift/handover
subsystem reads `score`). -/
structure TrendRisk where
  level : String
  score : ℚ
  reason : String
  details : List String
  factors_mood : String
  factors_sleep : String
deriving Repr, DecidableEq

/-- Python `dict.get(key, default)` on the `calculate_trend_risk` result,
restricted to string defaults: the only string-valued keys of that dict
are "level" and "reason" (`score` is a number, `details` a list,
`factors` a nested dict), so any other key falls to the default. -/
def TrendRisk.get (r : TrendRisk) (key : String) (dflt : String) : String :=
  if key == "level" then r.level
  else if key == "reason" then r.reason
  else dflt

/-- Insertion-ordered counting dict (`counts[k] = counts.get(k, 0) + 1`);
Python dicts preserve insertion order. -/
def bumpCount (counts : List (String × Nat)) (k : String) : List (String × Nat) :=
  if counts.any (fun kv => kv.1 == k)
  then counts.map (fun kv => if kv.1 == k then (kv.1, kv.2 + 1) else kv)
  else counts ++ [(k, 1)]

/-- `max(counts, key=counts.get)`: the first key (in insertion order)
with maximal count; "Unknown" when the dict is empty, per the
`if mood_counts else "Unknown"` guards. -/
def maxCountKey (counts : List (String × Nat)) : String :=
  match counts with
  | [] => "Unknown"
  | kv :: rest =>
    (rest.foldl (fun best kv2 => if kv2.2 > best.2 then kv2 else best) kv).1

/-- `counts.get(k, 0)`. -/
def countOf (counts : List (String × Nat)) (k : String) : Nat :=
  match counts.find? (fun kv => kv.1 == k) with
  | some kv => kv.2
  | none => 0

/-- `log.created_at.strftime('%Y-%m-%d')`: renders the timestamp's date.
The exact text of the rendering is not load-bearing for any claim; the
model prints the numeric instant. -/
def formatDate (t : Nat) : String := toString t

/-- The accumulator of the `for log in logs` loop of
`calculate_trend_risk`. -/
structure TrendAcc where
  high_risk_count : Nat
  medium_risk_count : Nat
  total_score : Nat
  recent_reasons : List String
  mood_counts : List (String × Nat)
  sleep_counts : List (String × Nat)
deriving Repr, DecidableEq

/-- One iteration of the `for log in logs` loop. -/
def trendStep (acc : TrendAcc) (log : Routinelog) : TrendAcc :=
  let result := calculate_single_risk log
  let acc :=
    { acc with
        mood_counts := bumpCount acc.mood_counts result.factors_mood
        sleep_counts := bumpCount acc.sleep_counts result.factors_sleep
        total_score := acc.total_score + result.score }
  if result.level == "High" then
    { acc with
        high_risk_count := acc.high_risk_count + 1
        recent_reasons := acc.recent_reasons ++
          ["High risk detected on " ++ formatDate log.created_at ++ ": " ++ result.reason] }
  else if result.level == "Medium" then
    { acc with
        medium_risk_count := acc.medium_risk_count + 1
        recent_reasons := acc.recent_reasons ++
          ["Medium risk on " ++ formatDate log.created_at ++ ": " ++ result.reason] }
  else acc

/-- `calculate_trend_risk` (risk_engine.py lines 86-169).  The
`len(logs) * 0.6` dominance cutoffs are modelled as the exact rational
`(3 : ℚ)/5 * len` (Python evaluates them in floating point; the resulting
`factors` strings are read by no caller in this subsystem and no claim). -/
def calculate_trend_risk (logs : List Routinelog) : TrendRisk :=
  if logs.isEmpty then
    { level := "Low", score := 0, reason := "No recent logs to analyze.",
      details := [], factors_mood := "N/A", factors_sleep := "N/A" }
  else
    let acc := logs.foldl trendStep
      { high_risk_count := 0, medium_risk_count := 0, total_score := 0,
        recent_reasons := [], mood_counts := [], sleep_counts := [] }
    let trend :=
      if acc.high_risk_count ≥ 2 then
        ("High", "Critical Alert: " ++ toString acc.high_risk_count ++
          " high-risk incidents detected recently.")
      else if acc.high_risk_count = 1 then
        ("Medium", "Warning: A high-risk incident was recently recorded.")
      else if acc.medium_risk_count ≥ 3 then
        ("Medium", "Caution: Consistent signs of deterioration detected.")
      else ("Low", "Stable trend over recent logs.")
    let avg_score : ℚ := (acc.total_score : ℚ) / (logs.length : ℚ)
    let dominant_mood := maxCountKey acc.mood_counts
    let dominant_sleep := maxCountKey acc.sleep_counts
    let mood_str :=
      if (countOf acc.mood_counts dominant_mood : ℚ) < (logs.length : ℚ) * (3 / 5)
      then "Fluctuating" else dominant_mood
    let sleep_str :=
      if (countOf acc.sleep_counts dominant_sleep : ℚ) < (logs.length : ℚ) * (3 / 5)
      then "Variable" else dominant_sleep
    { level := trend.1, score := avg_score, reason := trend.2,
      details := acc.recent_reasons,
      factors_mood := mood_str, factors_sleep := sleep_str }

/-! ## Handover engine (`src/PWID/services/handover_engine.py`) -/

/-- The `Routinelog.query.filter(...)` of the handover engine (lines
19-23): the recipient's log entries with
`shift.start_time <= created_at <= now` — note both bounds are
inclusive (`>=` and `<= datetime.utcnow()`). -/
def logsFor (db : DB) (pwid_id shift_start now : Nat) : List Routinelog :=
  db.routinelogs.filter (fun l =>
    decide (l.pwid_id = pwid_id) &&
    decide (l.created_at ≥ shift_start) &&
    decide (l.created_at ≤ now))

/-- `xs.count(x)` on a Python list. -/
def pyCount (xs : List String) (x : String) : Nat :=
  (xs.filter (fun y => y == x)).length

/-- `max(set(xs), key=xs.count)` for non-empty `xs`: an element of `xs`
with maximal multiplicity.  Python iterates the set in unspecified hash
order and keeps the first maximum; the model iterates first occurrences
in list order (ties are not load-bearing for any claim). -/
def maxSetByCount (xs : List String) : String :=
  match xs.eraseDups with
  | [] => ""
  | y :: ys => ys.foldl (fun best z => if pyCount xs z > pyCount xs best then z else best) y

/-- The `summary_content` dict built for one recipient of a shift
(handover_engine.py lines 14-49): aggregates the recipient's logs over
`[shift.start_time, now]`, the pending task titles, and the trend-risk
result.  Python truthiness `if l.sleep_quality` etc. filters out empty
strings.  `risk.get('justification', '')` reads a key the risk dict does
not contain, so it always yields the default `''`. -/
def summaryContentFor (db : DB) (shift : Shift) (pwid_id now : Nat) : SummaryContent :=
  let logs := logsFor db pwid_id shift.start_time now
  let sleep_logs := (logs.filter (fun l => !(l.sleep_quality == ""))).map Routinelog.sleep_quality
  let meals_logs := (logs.filter (fun l => !(l.meals == ""))).map Routinelog.meals
  let moods := (logs.filter (fun l => !(l.mood == ""))).map Routinelog.mood
  let incidents := (logs.filter (fun l => l.incident == "yes")).map Routinelog.notes
  let pending_task_titles :=
    (db.tasks.filter (fun t => decide (t.pwid_id = pwid_id) && t.status == "pending")).map Task.title
  let risk := calculate_trend_risk logs
  { sleep_quality := if !sleep_logs.isEmpty then maxSetByCount sleep_logs else "No Data"
    meals_summary :=
      if !meals_logs.isEmpty
      then toString (meals_logs.filter (fun m => m == "taken")).length ++ "/" ++
        toString meals_logs.length ++ " taken"
      else "No Data"
    mood_trend := moods
    incidents := incidents
    pending_tasks := pending_task_titles
    risk_level := risk.get "level" "Low"
    risk_justification := risk.get "justification" "" }

/-- Replace the first element satisfying `p` (SQLAlchemy `.first()` then
in-place update of that row). -/
def updateFirst (p : α → Bool) (f : α → α) : List α → List α
  | [] => []
  | x :: xs => if p x then f x :: xs else x :: updateFirst p f xs

/-- The create-or-update step of the handover loop (lines 51-65): look up
the summary row keyed `(shift_id, pwid_id)`; overwrite its content when
present, else insert a fresh row.  Returns the written row. -/
def upsertSummary (db : DB) (shift : Shift) (pwid_id now : Nat) :
    DB × HandoverSummary :=
  let content := summaryContentFor db shift pwid_id now
  match db.summaries.find? (fun h => h.shift_id == shift.id && h.pwid_id == pwid_id) with
  | some existing =>
    let summaries' := updateFirst
      (fun h => h.shift_id == shift.id && h.pwid_id == pwid_id)
      (fun h => { h with content := content }) db.summaries
    ({ db with summaries := summaries' }, { existing with content := content })
  | none =>
    let new_summary : HandoverSummary :=
      { id := db.next_summary_id, shift_id := shift.id, pwid_id := pwid_id,
        content := content }
    ({ db with
        summaries := db.summaries ++ [new_summary]
        next_summary_id := db.next_summary_id + 1 },
     new_summary)

/-- The `for pwid in shift.assigned_pwids` loop of
`generate_handover_summary`: processes the recipients in order,
collecting the written rows. -/
def processRecipients (shift : Shift) (now : Nat) :
    DB → List Nat → DB × List HandoverSummary
  | db, [] => (db, [])
  | db, pid :: rest =>
    let step := upsertSummary db shift pid now
    let tail := processRecipients shift now step.1 rest
    (tail.1, step.2 :: tail.2)

/-- `generate_handover_summary` (handover_engine.py lines 6-67):
`Shift.query.get(shift_id)` — absent shift returns `None` with no write;
otherwise one summary per assigned recipient, upserted by
`(shift_id, pwid_id)`.  The Python loop calls `datetime.utcnow()` per
iteration; the model threads one `now` through the call. -/
def generate_handover_summary (db : DB) (shift_id now : Nat) :
    DB × Option (List HandoverSummary) :=
  match db.shifts.find? (fun s => s.id == shift_id) with
  | none => (db, none)
  | some shift =>
    let r := processRecipients shift now db shift.assigned_pwids
    (r.1, some r.2)

/-! ## end_shift and emergency_replace -/

inductive EndShiftResult where
  /-- HTTP 200 with `summaries_generated`. -/
  | ended (summaries_generated : Nat)
  /-- `get_or_404` failed. -/
  | notFound
  /-- `len(None)` would raise — unreachable because the shift was just found. -/
  | error
deriving Repr, DecidableEq

/-- `end_shift` (shifts_routes.py lines 157-173): looks the shift up,
unconditionally sets its status to "Completed" (no guard on the current
status), then runs the handover generator for it and reports the number
of summaries. -/
def end_shift (db : DB) (shift_id now : Nat) : DB × EndShiftResult :=
  match db.shifts.find? (fun s => s.id == shift_id) with
  | none => (db, .notFound)
  | some _ =>
    let db1 := { db with shifts := db.shifts.map (fun s =>
      if s.id = shift_id then { s with status := "Completed" } else s) }
    match generate_handover_summary db1 shift_id now with
    | (db2, some ss) => (db2, .ended ss.length)
    | (db2, none) => (db2, .error)

inductive EmergencyReplaceResult where
  /-- HTTP 200 with `old_shift_id` and `new_shift_id`. -/
  | replaced (old_shift_id new_shift_id : Nat)
  /-- `get_or_404` failed. -/
  | notFound
deriving Repr, DecidableEq

/-- `emergency_replace` (shifts_routes.py lines 175-214): unconditionally
marks the original shift "Emergency-Reassigned" (no guard on its current
status and no availability check for the new caregiver), inserts a new
shift from `now` to the original's end_time owned by `new_caregiver_id`
with status "Active" and the original's recipient list, then runs the
handover generator against the original shift's id and returns both ids.
The request's `reason` field is read but never used by the code. -/
def emergency_replace (db : DB) (shift_id new_caregiver_id : Nat)
    (_reason : String) (now : Nat) : DB × EmergencyReplaceResult :=
  match db.shifts.find? (fun s => s.id == shift_id) with
  | none => (db, .notFound)
  | some original_shift =>
    let marked := db.shifts.map (fun s =>
      if s.id = shift_id then { s with status := "Emergency-Reassigned" } else s)
    let new_shift : Shift :=
      { id := db.next_shift_id
        type := original_shift.type
        start_time := now
        end_time := original_shift.end_time
        caregiver_id := new_caregiver_id
        status := "Active"
        assigned_pwids := original_shift.assigned_pwids }
    let db1 := { db with
      shifts := marked ++ [new_shift]
      next_shift_id := db.next_shift_id + 1 }
    let db2 := (generate_handover_summary db1 shift_id now).1
    (db2, .replaced original_shift.id new_shift.id)

/-! ## Helper notions used by the theorems -/

/-- Conflict outcomes of a create request (HTTP 409). -/
def CreateShiftResult.isConflict : CreateShiftResult → Bool
  | .conflict _ => true
  | .created _ => false

/-- The Scheduled/Active shifts of one caregiver, in store order. -/
def caregiverShifts (db : DB) (c : Nat) : List Shift :=
  db.shifts.filter (fun s =>
    decide (s.caregiver_id = c) && (s.status == "Scheduled" || s.status == "Active"))

/-- Invariant I1 of the spec: for every caregiver, all pairs of their
Scheduled/Active shifts are non-overlapping under the open-interval rule. -/
def NoDoubleBooking (db : DB) : Prop :=
  ∀ c, (caregiverShifts db c).Pairwise (fun s1 s2 =>
    ¬ overlapOpen s1.start_time s1.end_time s2.start_time s2.end_time)

/-- The stored summary rows keyed by a given (shift, recipient) pair. -/
def summariesFor (l : List HandoverSummary) (sid pid : Nat) : List HandoverSummary :=
  l.filter (fun h => h.shift_id == sid && h.pwid_id == pid)

/-- The composite-key uniqueness property of the HandoverSummary table:
at most one row per (shift_id, pwid_id). -/
def AtMostOnePerKey (l : List HandoverSummary) : Prop :=
  ∀ sid pid, (summariesFor l sid pid).length ≤ 1

/-! ### List lemmas -/

theorem head?_filter_isSome {α} (p : α → Bool) (l : List α) :
    ((l.filter p).head?).isSome = true ↔ ∃ x ∈ l, p x = true := by
  rw [List.filter_head?]
  exact List.find?_isSome

theorem head?_filter_eq_none {α} (p : α → Bool) (l : List α) :
    (l.filter p).head? = none ↔ ∀ x ∈ l, p x = false := by
  rw [List.filter_head?, List.find?_eq_none]
  simp

theorem head?_filter_mem {α} {p : α → Bool} {l : List α} {x : α}
    (h : (l.filter p).head? = some x) : x ∈ l ∧ p x = true := by
  rw [List.filter_head?] at h
  exact ⟨List.mem_of_find?_eq_some h, List.find?_some h⟩

/-! ## C10: absent shift -/

/-- **C10**: for every shift identity that does not exist in the store,
generate_handover_summary returns None (not an error, not an empty list)
and leaves the store untouched. -/
theorem generate_handover_summary_absent (db : DB) (sid now : Nat)
    (h : ∀ s ∈ db.shifts, s.id ≠ sid) :
    generate_handover_summary db sid now = (db, none) := by
  have hfind : db.shifts.find? (fun s => s.id == sid) = none := by
    rw [List.find?_eq_none]
    intro s hs
    simpa using h s hs
  simp [generate_handover_summary, hfind]

/-- Witness for C10 at a concrete store: one shift with id 1, queried for
id 2. -/
theorem generate_handover_summary_absent_witness :
    generate_handover_summary
      { shifts := [{ id := 1, type := "Day", start_time := 0, end_time := 100,
                     caregiver_id := 1, status := "Scheduled", assigned_pwids := [7] }],
        pwids := [], routinelogs := [], tasks := [], summaries := [],
        next_shift_id := 2, next_summary_id := 1 } 2 50 =
      ({ shifts := [{ id := 1, type := "Day", start_time := 0, end_time := 100,
                      caregiver_id := 1, status := "Scheduled", assigned_pwids := [7] }],
         pwids := [], routinelogs := [], tasks := [], summaries := [],
         next_shift_id := 2, next_summary_id := 1 }, none) :=
  generate_handover_summary_absent _ 2 50 (by decide)

/-! ## C9: validate_coverage -/

/-- **C9**: validate_coverage mutates no stored state and returns exactly
the active recipients for whom no Scheduled/Active shift both includes
them and contains the window under closed containment
(shift.start ≤ window.start and shift.end ≥ window.end). -/
theorem validate_coverage_spec (db : DB) (st en : Nat) :
    (validate_coverage db st en).1 = db ∧
    (∀ pid, pid ∈ (validate_coverage db st en).2 ↔
      ∃ p ∈ db.pwids, p.id = pid ∧ p.is_active = true ∧
        ¬ ∃ s ∈ db.shifts, pid ∈ s.assigned_pwids ∧
          (s.status = "Scheduled" ∨ s.status = "Active") ∧
          s.start_time ≤ st ∧ s.end_time ≥ en) := by
  constructor
  · rfl
  · intro pid
    simp only [validate_coverage, List.mem_map, List.mem_filter]
    constructor
    · rintro ⟨p, ⟨⟨hp, hact⟩, hnone⟩, rfl⟩
      refine ⟨p, hp, rfl, by simpa using hact, ?_⟩
      rintro ⟨s, hs, hmem, hstat, hs1, hs2⟩
      rw [Option.isNone_iff_eq_none, findCoveringShift, head?_filter_eq_none] at hnone
      have := hnone s hs
      simp only [Bool.and_eq_false_iff] at this
      rcases this with ((h1 | h2) | h3) | h4
      · simp_all
      · rcases hstat with h | h <;> simp [h] at h2
      · simp at h3; omega
      · simp at h4; omega
    · rintro ⟨p, hp, rfl, hact, hno⟩
      refine ⟨p, ⟨⟨hp, by simpa using hact⟩, ?_⟩, rfl⟩
      rw [Option.isNone_iff_eq_none, findCoveringShift, head?_filter_eq_none]
      intro s hs
      by_contra hcon
      simp only [Bool.and_eq_true, Bool.or_eq_true, beq_iff_eq, decide_eq_true_eq,
        List.elem_iff, Bool.not_eq_false] at hcon
      exact hno ⟨s, hs, by tauto⟩

/-! ### The three-case filter vs the canonical predicate -/

theorem caregiverOverlapCheck_of_overlapOpen (s : Shift) (st en : Nat)
    (h : overlapOpen s.start_time s.end_time st en) :
    caregiverOverlapCheck s st en = true := by
  rcases h with ⟨h1, h2⟩
  simp only [caregiverOverlapCheck, Bool.or_eq_true, Bool.and_eq_true,
    decide_eq_true_eq]
  omega

theorem caregiverOverlapCheck_iff (s : Shift) (st en : Nat)
    (hs : s.start_time < s.end_time) (hw : st < en) :
    caregiverOverlapCheck s st en = true ↔
      overlapOpen s.start_time s.end_time st en := by
  simp only [caregiverOverlapCheck, overlapOpen, Bool.or_eq_true, Bool.and_eq_true,
    decide_eq_true_eq]
  omega

/-! ## Concrete stores used by counterexamples and witnesses -/

/-- Store with one Scheduled shift of caregiver 1 over [0,100] that
already includes recipient 7. -/
def exDB1 : DB :=
  { shifts := [{ id := 1, type := "Day", start_time := 0, end_time := 100,
                 caregiver_id := 1, status := "Scheduled", assigned_pwids := [7] }],
    pwids := [{ id := 7, full_name := "P1", is_active := true }],
    routinelogs := [], tasks := [], summaries := [],
    next_shift_id := 2, next_summary_id := 1 }

/-- A create request by a different caregiver for the identical window,
asking for recipient 7 as well. -/
def exReq1 : CreateShiftRequest :=
  { caregiver_id := 2, type := "Day", start_time := 0, end_time := 100,
    assigned_pwids := some [7] }

/-- The empty store. -/
def emptyDB : DB :=
  { shifts := [], pwids := [], routinelogs := [], tasks := [], summaries := [],
    next_shift_id := 1, next_summary_id := 1 }

/-- Scenario A, first request: caregiver 1, [10:00,18:00] in minutes. -/
def scenarioA1 : CreateShiftRequest :=
  { caregiver_id := 1, type := "Day", start_time := 600, end_time := 1080,
    assigned_pwids := none }

/-- Scenario A, second request: caregiver 1, [17:00,20:00] in minutes. -/
def scenarioA2 : CreateShiftRequest :=
  { caregiver_id := 1, type := "Evening", start_time := 1020, end_time := 1200,
    assigned_pwids := none }

/-! ## C1: create_shift and requested recipients -/

/-- **C1 counterexample**: recipient 7 is already on caregiver 1's
Scheduled shift over the very same window, yet create_shift for
caregiver 2 with requested recipient 7 succeeds (201) and persists the
shift together with the recipient assignment — no Conflict, so the
claimed recipient-availability validation does not happen. -/
theorem create_shift_ignores_recipient_conflict :
    (create_shift exDB1 exReq1).2 = CreateShiftResult.created 2 ∧
    (create_shift exDB1 exReq1).1.shifts =
      exDB1.shifts ++
        [{ id := 2, type := "Day", start_time := 0, end_time := 100,
           caregiver_id := 2, status := "Scheduled", assigned_pwids := [7] }] ∧
    (∃ s ∈ exDB1.shifts, s.status = "Scheduled" ∧ (7 : Nat) ∈ s.assigned_pwids ∧
      overlapOpen s.start_time s.end_time 0 100) := by
  refine ⟨rfl, rfl, ?_⟩
  decide

/-- **C1 (amended)**: create_shift validates only the caregiver's
availability.  When the caregiver query finds an overlap it returns
Conflict with that shift's id and persists nothing; when it finds none,
the shift is persisted with status Scheduled and exactly the requested
recipient ids that exist in the store — without any recipient
availability check (no hypothesis about the recipients' other shifts is
needed). -/
theorem create_shift_validates_caregiver_only (db : DB) (data : CreateShiftRequest) :
    (∀ s, findCaregiverOverlap db data.caregiver_id data.start_time data.end_time
        = some s → create_shift db data = (db, .conflict s.id)) ∧
    (findCaregiverOverlap db data.caregiver_id data.start_time data.end_time = none →
      create_shift db data =
        ({ db with
            shifts := db.shifts ++
              [{ id := db.next_shift_id, type := data.type,
                 start_time := data.start_time, end_time := data.end_time,
                 caregiver_id := data.caregiver_id, status := "Scheduled",
                 assigned_pwids :=
                   match data.assigned_pwids with
                   | some ids => (db.pwids.filter (fun p => ids.contains p.id)).map PWID.id
                   | none => [] }],
            next_shift_id := db.next_shift_id + 1 },
         .created db.next_shift_id)) := by
  constructor
  · intro s h
    simp [create_shift, h]
  · intro h
    simp [create_shift, h]

/-- Witness for the amended C1 at a concrete store: caregiver 1 asks for
an overlapping window and is refused with the stored shift's id. -/
theorem create_shift_validates_caregiver_only_witness :
    create_shift exDB1
      { caregiver_id := 1, type := "Day", start_time := 50, end_time := 150,
        assigned_pwids := none } =
      (exDB1, .conflict 1) :=
  (create_shift_validates_caregiver_only exDB1
      { caregiver_id := 1, type := "Day", start_time := 50, end_time := 150,
        assigned_pwids := none }).1
    { id := 1, type := "Day", start_time := 0, end_time := 100,
      caregiver_id := 1, status := "Scheduled", assigned_pwids := [7] }
    (by decide)

/-! ## C2: no double-booking of caregivers -/

/-- **C2**: (i) create_shift returns Conflict iff the requested window
overlaps one of that caregiver's Scheduled/Active shifts under the
open-interval rule (windows non-empty); (ii) consequently create_shift
preserves invariant I1 — all pairs of a caregiver's Scheduled/Active
shifts stay non-overlapping; (iii) Scenario A: after creating
Shift(C1,[10:00,18:00]) in the empty store, creating
Shift(C1,[17:00,20:00]) returns Conflict. -/
theorem create_shift_conflict_iff_overlap (db : DB) (data : CreateShiftRequest)
    (hw : data.start_time < data.end_time)
    (hdb : ∀ s ∈ db.shifts, s.start_time < s.end_time) :
    ((create_shift db data).2.isConflict = true ↔
      ∃ s ∈ db.shifts, s.caregiver_id = data.caregiver_id ∧
        (s.status = "Scheduled" ∨ s.status = "Active") ∧
        overlapOpen s.start_time s.end_time data.start_time data.end_time) ∧
    (NoDoubleBooking db → NoDoubleBooking (create_shift db data).1) ∧
    (create_shift (create_shift emptyDB scenarioA1).1 scenarioA2).2 =
      CreateShiftResult.conflict 1 := by
  have key : ∀ s ∈ db.shifts,
      ((decide (s.caregiver_id = data.caregiver_id) &&
        (s.status == "Scheduled" || s.status == "Active") &&
        caregiverOverlapCheck s data.start_time data.end_time) = true) ↔
      (s.caregiver_id = data.caregiver_id ∧
        (s.status = "Scheduled" ∨ s.status = "Active") ∧
        overlapOpen s.start_time s.end_time data.start_time data.end_time) := by
    intro s hs
    simp only [Bool.and_eq_true, Bool.or_eq_true, decide_eq_true_eq, beq_iff_eq,
      caregiverOverlapCheck_iff s _ _ (hdb s hs) hw]
    tauto
  refine ⟨?_, ?_, by decide⟩
  · cases hfind : findCaregiverOverlap db data.caregiver_id data.start_time data.end_time with
    | some s =>
      simp only [create_shift, hfind, CreateShiftResult.isConflict, true_iff]
      rw [findCaregiverOverlap] at hfind
      rcases head?_filter_mem hfind with ⟨hmem, hpred⟩
      exact ⟨s, hmem, (key s hmem).mp hpred⟩
    | none =>
      have hres : (create_shift db data).2.isConflict = false := by
        simp [create_shift, hfind, CreateShiftResult.isConflict]
      rw [hres]
      rw [findCaregiverOverlap, head?_filter_eq_none] at hfind
      constructor
      · intro h
        exact absurd h (by simp)
      · rintro ⟨s, hmem, hprop⟩
        exfalso
        have hfail := hfind s hmem
        rw [← key s hmem] at hprop
        rw [hprop] at hfail
        exact absurd hfail (by simp)
  · intro hI1
    cases hfind : findCaregiverOverlap db data.caregiver_id data.start_time data.end_time with
    | some s => simpa [create_shift, hfind] using hI1
    | none =>
      simp only [create_shift, hfind]
      intro c
      rw [findCaregiverOverlap, head?_filter_eq_none] at hfind
      simp only [caregiverShifts, List.filter_append, List.pairwise_append]
      refine ⟨hI1 c, List.Pairwise.filter _ (by simp), ?_⟩
      intro s1 hs1 s2 hs2
      rw [List.mem_filter] at hs1 hs2
      rcases hs1 with ⟨hmem1, hp1⟩
      rcases hs2 with ⟨hmem2, hp2⟩
      simp only [List.mem_singleton] at hmem2
      subst hmem2
      rw [Bool.and_eq_true, decide_eq_true_eq] at hp1 hp2
      intro hov
      have hcheck := caregiverOverlapCheck_of_overlapOpen s1 data.start_time
        data.end_time hov
      have hfail := hfind s1 hmem1
      have hpass : (decide (s1.caregiver_id = data.caregiver_id) &&
          (s1.status == "Scheduled" || s1.status == "Active") &&
          caregiverOverlapCheck s1 data.start_time data.end_time) = true := by
        rw [Bool.and_eq_true, Bool.and_eq_true]
        refine ⟨⟨?_, hp1.2⟩, hcheck⟩
        have hcg : data.caregiver_id = c := by simpa using hp2.1
        simp [hp1.1, hcg]
      rw [hpass] at hfail
      exact absurd hfail (by simp)

/-- Witness for C2: Scenario A extracted at the empty store, with the
non-empty-window hypotheses discharged concretely. -/
theorem create_shift_conflict_iff_overlap_witness :
    (create_shift (create_shift emptyDB scenarioA1).1 scenarioA2).2 =
      CreateShiftResult.conflict 1 :=
  (create_shift_conflict_iff_overlap emptyDB scenarioA1 (by decide) (by decide)).2.2

/-! ### Frame lemmas: the handover generator only writes summary rows -/

theorem upsertSummary_frame (db : DB) (shift : Shift) (pid now : Nat) :
    (upsertSummary db shift pid now).1.shifts = db.shifts ∧
    (upsertSummary db shift pid now).1.pwids = db.pwids ∧
    (upsertSummary db shift pid now).1.routinelogs = db.routinelogs ∧
    (upsertSummary db shift pid now).1.tasks = db.tasks := by
  unfold upsertSummary
  split <;> exact ⟨rfl, rfl, rfl, rfl⟩

theorem processRecipients_frame (shift : Shift) (now : Nat) :
    ∀ (pids : List Nat) (db : DB),
      (processRecipients shift now db pids).1.shifts = db.shifts ∧
      (processRecipients shift now db pids).1.pwids = db.pwids ∧
      (processRecipients shift now db pids).1.routinelogs = db.routinelogs ∧
      (processRecipients shift now db pids).1.tasks = db.tasks := by
  intro pids
  induction pids with
  | nil => intro db; exact ⟨rfl, rfl, rfl, rfl⟩
  | cons p rest ih =>
    intro db
    rcases upsertSummary_frame db shift p now with ⟨h1, h2, h3, h4⟩
    rcases ih (upsertSummary db shift p now).1 with ⟨g1, g2, g3, g4⟩
    exact ⟨g1.trans h1, g2.trans h2, g3.trans h3, g4.trans h4⟩

theorem generate_frame (db : DB) (sid now : Nat) :
    (generate_handover_summary db sid now).1.shifts = db.shifts ∧
    (generate_handover_summary db sid now).1.pwids = db.pwids ∧
    (generate_handover_summary db sid now).1.routinelogs = db.routinelogs ∧
    (generate_handover_summary db sid now).1.tasks = db.tasks := by
  unfold generate_handover_summary
  cases h : db.shifts.find? (fun s => s.id == sid) with
  | none => exact ⟨rfl, rfl, rfl, rfl⟩
  | some shift => simpa using processRecipients_frame shift now shift.assigned_pwids db

/-- The primary-key lookup after the in-place status write: positions are
preserved, so the first shift with the id is the marked one. -/
theorem find?_map_setStatus (l : List Shift) (sid : Nat) (st : String) :
    (l.map (fun s => if s.id = sid then { s with status := st } else s)).find?
        (fun s => s.id == sid) =
      (l.find? (fun s => s.id == sid)).map (fun s => { s with status := st }) := by
  induction l with
  | nil => rfl
  | cons x xs ih =>
    simp only [List.map_cons, List.find?_cons]
    by_cases h : x.id = sid
    · simp [h]
    · have hb : (x.id == sid) = false := by simp [h]
      simp [h, hb, ih]

/-! ## C3: the assignment check vs the canonical predicate -/

/-- Store for the C3 counterexample: recipient 7's existing Scheduled
shift [40,60] lies strictly inside the target shift's window [0,100]. -/
def exDB3 : DB :=
  { shifts := [{ id := 1, type := "Day", start_time := 40, end_time := 60,
                 caregiver_id := 1, status := "Scheduled", assigned_pwids := [7] },
               { id := 2, type := "Day", start_time := 0, end_time := 100,
                 caregiver_id := 2, status := "Scheduled", assigned_pwids := [] }],
    pwids := [{ id := 7, full_name := "P1", is_active := true }],
    routinelogs := [], tasks := [], summaries := [],
    next_shift_id := 3, next_summary_id := 1 }

/-- **C3 counterexample**: recipient 7 already belongs to a Scheduled
shift whose window [40,60] is strictly contained in the target window
[0,100] — canonical open-interval overlap holds — yet assign_pwids
reports no Conflict and persists the double assignment, because the
two-case check omits the containment case. -/
theorem assign_pwids_misses_contained_overlap :
    (assign_pwids exDB3 2 [7]).2 = AssignResult.assigned ∧
    (∃ s ∈ exDB3.shifts, s.id ≠ 2 ∧ s.status = "Scheduled" ∧
      (7 : Nat) ∈ s.assigned_pwids ∧ overlapOpen s.start_time s.end_time 0 100) ∧
    (assign_pwids exDB3 2 [7]).1.shifts =
      [{ id := 1, type := "Day", start_time := 40, end_time := 60,
         caregiver_id := 1, status := "Scheduled", assigned_pwids := [7] },
       { id := 2, type := "Day", start_time := 0, end_time := 100,
         caregiver_id := 2, status := "Scheduled", assigned_pwids := [7] }] := by
  refine ⟨rfl, by decide, rfl⟩

/-- **C3 (amended)**: the recipient check of assign_pwids is not the
canonical predicate: for a non-empty target window it decides canonical
open-interval overlap AND the existing window being not strictly
contained in the target's; a detected conflict still aborts the whole
batch with no write. -/
theorem assign_overlap_two_cases (s t : Shift) (db : DB) (shift_id : Nat)
    (pwid_ids : List Nat) (ht : t.start_time < t.end_time) :
    (assignOverlapCheck s t = true ↔
      overlapOpen s.start_time s.end_time t.start_time t.end_time ∧
        ¬(t.start_time < s.start_time ∧ s.end_time < t.end_time)) ∧
    (∀ pid osid, (assign_pwids db shift_id pwid_ids).2 = .doubleAssignment pid osid →
      (assign_pwids db shift_id pwid_ids).1 = db) := by
  constructor
  · simp only [assignOverlapCheck, overlapOpen, Bool.or_eq_true, Bool.and_eq_true,
      decide_eq_true_eq]
    omega
  · intro pid osid h
    cases hf : db.shifts.find? (fun s => s.id == shift_id) with
    | none => simp [assign_pwids, hf] at h
    | some t' =>
      cases hd : firstDoubleAssignment db t'
          (db.pwids.filter (fun p => pwid_ids.contains p.id)) with
      | none =>
        simp only [assign_pwids, hf, hd] at h
        exact absurd h (by simp)
      | some pr =>
        obtain ⟨p1, s1⟩ := pr
        simp only [assign_pwids, hf, hd]

/-- Store for the C3 witness: recipient 7's existing shift [0,50] starts
at the target's start, a case the two-case filter does detect. -/
def exDB4 : DB :=
  { shifts := [{ id := 1, type := "Day", start_time := 0, end_time := 50,
                 caregiver_id := 1, status := "Scheduled", assigned_pwids := [7] },
               { id := 2, type := "Day", start_time := 0, end_time := 100,
                 caregiver_id := 2, status := "Scheduled", assigned_pwids := [] }],
    pwids := [{ id := 7, full_name := "P1", is_active := true }],
    routinelogs := [], tasks := [], summaries := [],
    next_shift_id := 3, next_summary_id := 1 }

/-- Witness for the amended C3: on a detected conflict the store is
untouched. -/
theorem assign_overlap_two_cases_witness :
    (assign_pwids exDB4 2 [7]).1 = exDB4 :=
  (assign_overlap_two_cases
      { id := 1, type := "Day", start_time := 0, end_time := 50,
        caregiver_id := 1, status := "Scheduled", assigned_pwids := [7] }
      { id := 2, type := "Day", start_time := 0, end_time := 100,
        caregiver_id := 2, status := "Scheduled", assigned_pwids := [] }
      exDB4 2 [7] (by decide)).2 7 1 (by decide)

/-! ## C4: status transitions -/

/-- Store with one Emergency-Reassigned shift. -/
def exDB5 : DB :=
  { shifts := [{ id := 1, type := "Day", start_time := 0, end_time := 100,
                 caregiver_id := 1, status := "Emergency-Reassigned",
                 assigned_pwids := [] }],
    pwids := [], routinelogs := [], tasks := [], summaries := [],
    next_shift_id := 2, next_summary_id := 1 }

/-- Store with one Completed shift. -/
def exDB6 : DB :=
  { shifts := [{ id := 1, type := "Day", start_time := 0, end_time := 100,
                 caregiver_id := 1, status := "Completed", assigned_pwids := [] }],
    pwids := [], routinelogs := [], tasks := [], summaries := [],
    next_shift_id := 2, next_summary_id := 1 }

/-- **C4 counterexample**: the terminal states are not terminal —
end_shift on an Emergency-Reassigned shift flips it to Completed, and
emergency_replace on a Completed shift flips it to Emergency-Reassigned
(creating a new Active shift besides). -/
theorem terminal_states_not_terminal :
    exDB5.shifts.map Shift.status = ["Emergency-Reassigned"] ∧
    (end_shift exDB5 1 50).1.shifts.map Shift.status = ["Completed"] ∧
    exDB6.shifts.map Shift.status = ["Completed"] ∧
    (emergency_replace exDB6 1 2 "sick" 50).1.shifts.map Shift.status =
      ["Emergency-Reassigned", "Active"] := by
  refine ⟨rfl, ?_, rfl, ?_⟩ <;> decide

/-- **C4 (amended)**: lazy activation does move only Scheduled shifts
whose window contains now to Active (both listing endpoints), but
end_shift and emergency_replace guard nothing: they set the looked-up
shift's status to Completed resp. Emergency-Reassigned whatever its
current status, so Completed and Emergency-Reassigned are not terminal. -/
theorem status_transition_behavior (db : DB) (now sid ncg : Nat) (r : String) :
    ((get_active_shifts db now).1.shifts = db.shifts.map (activateShift now) ∧
     (get_all_shifts db now).1.shifts = db.shifts.map (activateShift now)) ∧
    (∀ s : Shift, activateShift now s ≠ s →
      s.status = "Scheduled" ∧ s.start_time ≤ now ∧ now ≤ s.end_time ∧
      activateShift now s = { s with status := "Active" }) ∧
    ((∃ s ∈ db.shifts, s.id = sid) →
      (end_shift db sid now).1.shifts =
        db.shifts.map (fun s => if s.id = sid then { s with status := "Completed" } else s)) ∧
    (∀ orig, db.shifts.find? (fun s => s.id == sid) = some orig →
      (emergency_replace db sid ncg r now).1.shifts =
        db.shifts.map (fun s =>
          if s.id = sid then { s with status := "Emergency-Reassigned" } else s) ++
        [{ id := db.next_shift_id, type := orig.type, start_time := now,
           end_time := orig.end_time, caregiver_id := ncg, status := "Active",
           assigned_pwids := orig.assigned_pwids }]) := by
  refine ⟨⟨rfl, rfl⟩, ?_, ?_, ?_⟩
  · intro s hne
    unfold activateShift at hne ⊢
    by_cases hc : (decide (s.start_time ≤ now) && decide (s.end_time ≥ now) &&
        s.status == "Scheduled") = true
    · rw [if_pos hc]
      rw [Bool.and_eq_true, Bool.and_eq_true] at hc
      refine ⟨by simpa using hc.2, by simpa using hc.1.1, by simpa using hc.1.2, rfl⟩
    · rw [if_neg hc] at hne
      exact absurd rfl hne
  · rintro ⟨s, hs, rfl⟩
    have hf : (db.shifts.find? (fun t => t.id == s.id)).isSome = true := by
      rw [List.find?_isSome]
      exact ⟨s, hs, by simp⟩
    cases hfind : db.shifts.find? (fun t => t.id == s.id) with
    | none => rw [hfind] at hf; simp at hf
    | some t =>
      simp only [end_shift, hfind]
      split
      · rename_i db2 ss heq
        have hfr := (generate_frame
          { db with shifts := db.shifts.map (fun u =>
              if u.id = s.id then { u with status := "Completed" } else u) } s.id now).1
        rw [heq] at hfr
        simpa using hfr
      · rename_i db2 heq
        have hfr := (generate_frame
          { db with shifts := db.shifts.map (fun u =>
              if u.id = s.id then { u with status := "Completed" } else u) } s.id now).1
        rw [heq] at hfr
        simpa using hfr
  · intro orig hfind
    simp only [emergency_replace, hfind]
    exact (generate_frame _ sid now).1

/-- Witness for the amended C4 at the Emergency-Reassigned store. -/
theorem status_transition_behavior_witness :
    (end_shift exDB5 1 50).1.shifts =
      exDB5.shifts.map (fun s => if s.id = 1 then { s with status := "Completed" } else s) :=
  ((status_transition_behavior exDB5 50 1 2 "sick").2.2.1) (by decide)

/-! ### Upsert lemmas -/

theorem filter_updateFirst_same {α} (k : α → Bool) (f : α → α)
    (hf : ∀ x, k (f x) = k x) :
    ∀ (l : List α) (x : α), l.filter k = [x] →
      (updateFirst k f l).filter k = [f x] := by
  intro l
  induction l with
  | nil => intro x hx; simp at hx
  | cons y ys ih =>
    intro x hx
    by_cases h : k y
    · rw [List.filter_cons_of_pos h] at hx
      rcases List.cons_eq_cons.mp hx with ⟨rfl, htail⟩
      simp only [updateFirst, if_pos h]
      rw [List.filter_cons_of_pos (by rw [hf]; exact h), htail]
    · rw [List.filter_cons_of_neg h] at hx
      simp only [updateFirst, if_neg h]
      rw [List.filter_cons_of_neg h]
      exact ih x hx

theorem filter_updateFirst_of_disjoint {α} (q k : α → Bool) (f : α → α)
    (hdis : ∀ x, k x = true → q x = false) (hf : ∀ x, q (f x) = q x) :
    ∀ l : List α, (updateFirst k f l).filter q = l.filter q := by
  intro l
  induction l with
  | nil => rfl
  | cons y ys ih =>
    by_cases h : k y
    · simp only [updateFirst, if_pos h]
      have hq := hdis y h
      rw [List.filter_cons_of_neg (by simp [hf, hq]),
        List.filter_cons_of_neg (by simp [hq])]
    · simp only [updateFirst, if_neg h]
      by_cases hq : q y
      · rw [List.filter_cons_of_pos hq, List.filter_cons_of_pos hq, ih]
      · rw [List.filter_cons_of_neg (by simpa using hq),
          List.filter_cons_of_neg (by simpa using hq), ih]

theorem filter_eq_singleton_of_find? {α} (k : α → Bool) :
    ∀ (l : List α) (x : α), l.find? k = some x → (l.filter k).length ≤ 1 →
      l.filter k = [x] := by
  intro l
  induction l with
  | nil => intro x hx; simp at hx
  | cons y ys ih =>
    intro x hx hlen
    by_cases h : k y
    · have hyx : y = x := by
        rw [List.find?_cons_of_pos _ h] at hx
        exact Option.some.inj hx
      subst hyx
      rw [List.filter_cons_of_pos h] at hlen ⊢
      have h0 : (ys.filter k).length = 0 := by
        simp only [List.length_cons] at hlen
        omega
      rw [List.length_eq_zero.mp h0]
    · rw [List.find?_cons_of_neg _ h] at hx
      rw [List.filter_cons_of_neg h] at hlen ⊢
      exact ih x hx hlen

/-- The content write preserves the row's key fields. -/
theorem content_update_preserves_key (sid pid : Nat) (c : SummaryContent) :
    ∀ h : HandoverSummary,
      ((fun h => h.shift_id == sid && h.pwid_id == pid)
        ({ h with content := c } : HandoverSummary)) =
      ((fun h => h.shift_id == sid && h.pwid_id == pid) h) := by
  intro h
  rfl

theorem upsertSummary_same_key (db : DB) (shift : Shift) (pid now : Nat)
    (hinv : AtMostOnePerKey db.summaries) :
    summariesFor (upsertSummary db shift pid now).1.summaries shift.id pid =
      [(upsertSummary db shift pid now).2] ∧
    (upsertSummary db shift pid now).2.content = summaryContentFor db shift pid now := by
  unfold upsertSummary summariesFor
  cases hfind : db.summaries.find?
      (fun h => h.shift_id == shift.id && h.pwid_id == pid) with
  | some existing =>
    simp only [hfind]
    refine ⟨?_, trivial⟩
    exact filter_updateFirst_same _ _
      (content_update_preserves_key shift.id pid _) db.summaries existing
      (filter_eq_singleton_of_find? _ db.summaries existing hfind (hinv shift.id pid))
  | none =>
    simp only [hfind]
    refine ⟨?_, trivial⟩
    have h1 : db.summaries.filter
        (fun h => h.shift_id == shift.id && h.pwid_id == pid) = [] := by
      rw [List.filter_eq_nil_iff]
      intro x hx
      rw [List.find?_eq_none] at hfind
      exact fun hk => hfind x hx hk
    rw [List.filter_append, h1]
    simp

theorem upsertSummary_other_key (db : DB) (shift : Shift) (pid now sid2 pid2 : Nat)
    (hne : ¬(sid2 = shift.id ∧ pid2 = pid)) :
    summariesFor (upsertSummary db shift pid now).1.summaries sid2 pid2 =
      summariesFor db.summaries sid2 pid2 := by
  unfold upsertSummary summariesFor
  cases hfind : db.summaries.find?
      (fun h => h.shift_id == shift.id && h.pwid_id == pid) with
  | some existing =>
    simp only [hfind]
    apply filter_updateFirst_of_disjoint
    · intro x hx
      rw [Bool.and_eq_true, beq_iff_eq, beq_iff_eq] at hx
      by_contra hq
      rw [Bool.not_eq_false, Bool.and_eq_true, beq_iff_eq, beq_iff_eq] at hq
      exact hne ⟨hq.1.symm.trans hx.1, hq.2.symm.trans hx.2⟩
    · intro x; rfl
  | none =>
    simp only [hfind]
    rw [List.filter_append]
    have hnew : ((shift.id == sid2) && (pid == pid2)) = false := by
      rw [Bool.and_eq_false_iff]
      by_cases h1 : shift.id = sid2
      · right
        rw [beq_eq_false_iff_ne]
        exact fun h2 => hne ⟨h1.symm, h2.symm⟩
      · left
        rw [beq_eq_false_iff_ne]
        exact h1
    rw [List.filter_cons_of_neg (by simp [hnew]), List.filter_nil, List.append_nil]

theorem upsertSummary_inv (db : DB) (shift : Shift) (pid now : Nat)
    (hinv : AtMostOnePerKey db.summaries) :
    AtMostOnePerKey (upsertSummary db shift pid now).1.summaries := by
  intro sid2 pid2
  by_cases hkey : sid2 = shift.id ∧ pid2 = pid
  · rw [hkey.1, hkey.2, (upsertSummary_same_key db shift pid now hinv).1]
    simp
  · rw [upsertSummary_other_key db shift pid now _ _ hkey]
    exact hinv sid2 pid2

/-- Only the fields the content aggregation reads matter: two stores that
agree on routine logs and tasks produce the same content. -/
theorem summaryContentFor_congr (db db' : DB) (shift : Shift) (pid now : Nat)
    (hr : db.routinelogs = db'.routinelogs) (ht : db.tasks = db'.tasks) :
    summaryContentFor db shift pid now = summaryContentFor db' shift pid now := by
  unfold summaryContentFor logsFor
  rw [hr, ht]

theorem processRecipients_inv (shift : Shift) (now : Nat) :
    ∀ (pids : List Nat) (db : DB), AtMostOnePerKey db.summaries →
      AtMostOnePerKey (processRecipients shift now db pids).1.summaries := by
  intro pids
  induction pids with
  | nil => intro db hinv; exact hinv
  | cons q rest ih =>
    intro db hinv
    exact ih (upsertSummary db shift q now).1 (upsertSummary_inv db shift q now hinv)

theorem processRecipients_other_key (shift : Shift) (now : Nat) :
    ∀ (pids : List Nat) (db : DB) (sid2 pid2 : Nat),
      (sid2 ≠ shift.id ∨ pid2 ∉ pids) →
      summariesFor (processRecipients shift now db pids).1.summaries sid2 pid2 =
        summariesFor db.summaries sid2 pid2 := by
  intro pids
  induction pids with
  | nil => intro db _ _ _; rfl
  | cons q rest ih =>
    intro db sid2 pid2 hcond
    have hstep : ¬(sid2 = shift.id ∧ pid2 = q) := by
      rcases hcond with h | h
      · exact fun hc => h hc.1
      · exact fun hc => h (hc.2 ▸ List.mem_cons_self q rest)
    have hrest : sid2 ≠ shift.id ∨ pid2 ∉ rest := by
      rcases hcond with h | h
      · exact Or.inl h
      · exact Or.inr fun hc => h (List.mem_cons_of_mem q hc)
    have h1 : summariesFor (processRecipients shift now db (q :: rest)).1.summaries
        sid2 pid2 =
        summariesFor (processRecipients shift now
          (upsertSummary db shift q now).1 rest).1.summaries sid2 pid2 := rfl
    rw [h1, ih (upsertSummary db shift q now).1 sid2 pid2 hrest,
      upsertSummary_other_key db shift q now sid2 pid2 hstep]

theorem processRecipients_length (shift : Shift) (now : Nat) :
    ∀ (pids : List Nat) (db : DB),
      (processRecipients shift now db pids).2.length = pids.length := by
  intro pids
  induction pids with
  | nil => intro db; rfl
  | cons q rest ih =>
    intro db
    simp only [processRecipients, List.length_cons]
    rw [ih]

theorem processRecipients_row (shift : Shift) (now : Nat) :
    ∀ (pids : List Nat) (db : DB) (p : Nat),
      AtMostOnePerKey db.summaries → p ∈ pids →
      ∃ h, summariesFor (processRecipients shift now db pids).1.summaries
          shift.id p = [h] ∧
        h.content = summaryContentFor db shift p now := by
  intro pids
  induction pids with
  | nil => intro db p _ hmem; simp at hmem
  | cons q rest ih =>
    intro db p hinv hmem
    have hstep : (processRecipients shift now db (q :: rest)).1 =
        (processRecipients shift now (upsertSummary db shift q now).1 rest).1 := rfl
    by_cases hpr : p ∈ rest
    · obtain ⟨h, hrow, hcont⟩ := ih (upsertSummary db shift q now).1 p
        (upsertSummary_inv db shift q now hinv) hpr
      refine ⟨h, by rw [hstep]; exact hrow, ?_⟩
      rw [hcont]
      exact summaryContentFor_congr _ _ shift p now
        (upsertSummary_frame db shift q now).2.2.1
        (upsertSummary_frame db shift q now).2.2.2
    · have hq : p = q := by
        rcases List.mem_cons.mp hmem with h | h
        · exact h
        · exact absurd h hpr
      subst hq
      obtain ⟨hrow, hcont⟩ := upsertSummary_same_key db shift p now hinv
      refine ⟨(upsertSummary db shift p now).2, ?_, hcont⟩
      rw [hstep,
        processRecipients_other_key shift now rest (upsertSummary db shift p now).1
          shift.id p (Or.inr hpr)]
      exact hrow

theorem generate_inv (db : DB) (sid now : Nat)
    (hinv : AtMostOnePerKey db.summaries) :
    AtMostOnePerKey (generate_handover_summary db sid now).1.summaries := by
  unfold generate_handover_summary
  cases hfind : db.shifts.find? (fun s => s.id == sid) with
  | none => exact hinv
  | some shift =>
    exact processRecipients_inv shift now shift.assigned_pwids db hinv

/-- Reduction of generate_handover_summary once the shift is found. -/
theorem generate_found (db : DB) (sid now : Nat) (sh : Shift)
    (hfind : db.shifts.find? (fun s => s.id == sid) = some sh) :
    generate_handover_summary db sid now =
      ((processRecipients sh now db sh.assigned_pwids).1,
       some (processRecipients sh now db sh.assigned_pwids).2) := by
  simp only [generate_handover_summary, hfind]

/-- Reduction of end_shift once the shift is found: the status write
happens first, then the generator runs on the marked store against the
marked shift. -/
theorem end_shift_found (db : DB) (sid now : Nat) (sh : Shift)
    (hfind : db.shifts.find? (fun s => s.id == sid) = some sh) :
    end_shift db sid now =
      ((processRecipients { sh with status := "Completed" } now
          { db with shifts := db.shifts.map (fun s =>
              if s.id = sid then { s with status := "Completed" } else s) }
          sh.assigned_pwids).1,
       .ended (processRecipients { sh with status := "Completed" } now
          { db with shifts := db.shifts.map (fun s =>
              if s.id = sid then { s with status := "Completed" } else s) }
          sh.assigned_pwids).2.length) := by
  have hfind1 : (db.shifts.map (fun s =>
      if s.id = sid then { s with status := "Completed" } else s)).find?
        (fun s => s.id == sid) = some { sh with status := "Completed" } := by
    rw [find?_map_setStatus, hfind]
    rfl
  simp only [end_shift, hfind, generate_handover_summary, hfind1]

/-- Reduction of emergency_replace once the shift is found. -/
theorem emergency_replace_found (db : DB) (sid ncg : Nat) (r : String) (now : Nat)
    (orig : Shift)
    (hfind : db.shifts.find? (fun s => s.id == sid) = some orig) :
    emergency_replace db sid ncg r now =
      ((generate_handover_summary
          { db with
              shifts := db.shifts.map (fun s =>
                if s.id = sid then { s with status := "Emergency-Reassigned" } else s) ++
                [{ id := db.next_shift_id, type := orig.type, start_time := now,
                   end_time := orig.end_time, caregiver_id := ncg,
                   status := "Active", assigned_pwids := orig.assigned_pwids }]
              next_shift_id := db.next_shift_id + 1 } sid now).1,
       .replaced orig.id db.next_shift_id) := by
  simp only [emergency_replace, hfind]

/-! ## C7: idempotent upsert by composite key -/

/-- **C7**: if the HandoverSummary table has at most one row per
(shift_id, pwid_id), it still does after any run of the generator —
directly or through end_shift or emergency_replace — because generation
overwrites the existing row for the key instead of inserting a second
one.  Repeated end_shift calls therefore never produce two rows for the
same (shift, recipient). -/
theorem handover_upsert_idempotent (db : DB)
    (hinv : AtMostOnePerKey db.summaries) :
    (∀ sid now, AtMostOnePerKey (generate_handover_summary db sid now).1.summaries) ∧
    (∀ sid now, AtMostOnePerKey (end_shift db sid now).1.summaries) ∧
    (∀ sid ncg r now,
      AtMostOnePerKey (emergency_replace db sid ncg r now).1.summaries) := by
  refine ⟨fun sid now => generate_inv db sid now hinv, ?_, ?_⟩
  · intro sid now
    cases hfind : db.shifts.find? (fun s => s.id == sid) with
    | none =>
      simp only [end_shift, hfind]
      exact hinv
    | some sh =>
      rw [end_shift_found db sid now sh hfind]
      exact processRecipients_inv _ now sh.assigned_pwids _ hinv
  · intro sid ncg r now
    cases hfind : db.shifts.find? (fun s => s.id == sid) with
    | none =>
      simp only [emergency_replace, hfind]
      exact hinv
    | some orig =>
      rw [emergency_replace_found db sid ncg r now orig hfind]
      exact generate_inv _ sid now hinv

/-- Witness for C7: ending the concrete one-shift store twice keeps a
single row for (1,7). -/
theorem handover_upsert_idempotent_witness :
    AtMostOnePerKey (end_shift exDB1 1 60).1.summaries :=
  (handover_upsert_idempotent exDB1
    (by intro sid pid; simp [AtMostOnePerKey, summariesFor, exDB1])).2.1 1 60

/-! ## C5: a shift with one recipient and zero logs -/

/-- With no logs in the observation window every aggregate falls to its
sentinel: the code's meal line is "No Data" (the `if meals_logs` guard),
not a "0/0 taken" fraction; the trend evaluator returns its stable
no-data result. -/
theorem summaryContentFor_no_logs (db : DB) (shift : Shift) (pid now : Nat)
    (h : logsFor db pid shift.start_time now = []) :
    (summaryContentFor db shift pid now).sleep_quality = "No Data" ∧
    (summaryContentFor db shift pid now).meals_summary = "No Data" ∧
    (summaryContentFor db shift pid now).mood_trend = [] ∧
    (summaryContentFor db shift pid now).risk_level = "Low" ∧
    (summaryContentFor db shift pid now).risk_justification = "" := by
  unfold summaryContentFor
  rw [h]
  simp [calculate_trend_risk, TrendRisk.get]

/-- Store with one Scheduled shift, one assigned recipient and zero
routine logs. -/
def exDB9 : DB :=
  { shifts := [{ id := 1, type := "Night", start_time := 0, end_time := 100,
                 caregiver_id := 1, status := "Scheduled", assigned_pwids := [7] }],
    pwids := [{ id := 7, full_name := "P1", is_active := true }],
    routinelogs := [], tasks := [], summaries := [],
    next_shift_id := 2, next_summary_id := 1 }

/-- **C5 counterexample**: on the one-recipient zero-log store, end_shift
does produce exactly one summary with sleep "No Data" and empty mood
trend, but its meal line is the sentinel "No Data", not the claimed
"0/0 taken". -/
theorem end_shift_zero_logs_meals_sentinel :
    (end_shift exDB9 1 50).2 = EndShiftResult.ended 1 ∧
    (end_shift exDB9 1 50).1.summaries.map
      (fun h => (h.shift_id, h.pwid_id, h.content.meals_summary,
        h.content.sleep_quality, h.content.mood_trend)) =
      [(1, 7, "No Data", "No Data", [])] ∧
    ("No Data" : String) ≠ "0/0 taken" := by
  refine ⟨rfl, rfl, by decide⟩

/-- **C5 (amended)**: for every shift with exactly one assigned recipient
and zero log entries in the observation window, end_shift produces
exactly one HandoverSummary for that (shift, recipient) — the generator
never skips the recipient and never fails on absent data — with
sleep_quality "No Data", mood_trend [], and meals "No Data" (the code
emits the sentinel instead of the "0/0 taken" fraction). -/
theorem end_shift_single_recipient_no_logs (db : DB) (sid now p : Nat) (sh : Shift)
    (hfind : db.shifts.find? (fun s => s.id == sid) = some sh)
    (hrec : sh.assigned_pwids = [p])
    (hlogs : logsFor db p sh.start_time now = [])
    (hinv : AtMostOnePerKey db.summaries) :
    (end_shift db sid now).2 = EndShiftResult.ended 1 ∧
    ∃ h, summariesFor (end_shift db sid now).1.summaries sid p = [h] ∧
      h.content.sleep_quality = "No Data" ∧
      h.content.meals_summary = "No Data" ∧
      h.content.mood_trend = [] := by
  have hid : sh.id = sid := by simpa using List.find?_some hfind
  subst hid
  rw [end_shift_found db sh.id now sh hfind]
  constructor
  · dsimp only
    rw [processRecipients_length, hrec]
    rfl
  · dsimp only
    obtain ⟨h, hrow, hcont⟩ := processRecipients_row
      { sh with status := "Completed" } now sh.assigned_pwids
      { db with shifts := db.shifts.map (fun s =>
          if s.id = sh.id then { s with status := "Completed" } else s) }
      p hinv (by rw [hrec]; exact List.mem_singleton.mpr rfl)
    have hlogs1 : logsFor
        { db with shifts := db.shifts.map (fun s =>
            if s.id = sh.id then { s with status := "Completed" } else s) }
        p ({ sh with status := "Completed" } : Shift).start_time now = [] := hlogs
    obtain ⟨f1, f2, f3, _, _⟩ := summaryContentFor_no_logs
      { db with shifts := db.shifts.map (fun s =>
          if s.id = sh.id then { s with status := "Completed" } else s) }
      { sh with status := "Completed" } p now hlogs1
    exact ⟨h, hrow, by rw [hcont]; exact f1, by rw [hcont]; exact f2,
      by rw [hcont]; exact f3⟩

/-- Witness for the amended C5 on the concrete store. -/
theorem end_shift_single_recipient_no_logs_witness :
    (end_shift exDB9 1 50).2 = EndShiftResult.ended 1 ∧
    ∃ h, summariesFor (end_shift exDB9 1 50).1.summaries 1 7 = [h] ∧
      h.content.sleep_quality = "No Data" ∧
      h.content.meals_summary = "No Data" ∧
      h.content.mood_trend = [] :=
  end_shift_single_recipient_no_logs exDB9 1 50 7
    { id := 1, type := "Night", start_time := 0, end_time := 100,
      caregiver_id := 1, status := "Scheduled", assigned_pwids := [7] }
    (by decide) rfl (by decide)
    (by intro sid pid; simp [AtMostOnePerKey, summariesFor, exDB9])

/-! ## C6: emergency replacement -/

/-- Active shift of caregiver 1 over [0,100] with recipient 7. -/
def exShift8 : Shift :=
  { id := 1, type := "Day", start_time := 0, end_time := 100,
    caregiver_id := 1, status := "Active", assigned_pwids := [7] }

/-- Store for C6: one routine log stamped exactly at the replacement
instant 50. -/
def exDB8 : DB :=
  { shifts := [exShift8],
    pwids := [{ id := 7, full_name := "P1", is_active := true }],
    routinelogs := [{ id := 1, pwid_id := 7, sleep_quality := "good",
                      meals := "taken", medication_given := "yes", mood := "calm",
                      activity_done := "yes", incident := "no", notes := "",
                      created_at := 50 }],
    tasks := [], summaries := [],
    next_shift_id := 2, next_summary_id := 1 }

/-- **C6 counterexample**: replacing at now = 50 aggregates the log
stamped exactly 50 into the handover (mood_trend = ["calm"]), although
created_at = 50 is not < 50 — the observation window is closed at `now`
([start, now]), not the claimed half-open [start, now). -/
theorem emergency_summary_includes_boundary_log :
    (∃ l ∈ exDB8.routinelogs, l.created_at = 50 ∧ ¬(l.created_at < 50)) ∧
    (emergency_replace exDB8 1 2 "sick" 50).1.summaries.map
      (fun h => (h.shift_id, h.pwid_id, h.content.mood_trend)) =
      [(1, 7, ["calm"])] := by
  refine ⟨by decide, ?_⟩
  rfl

/-- **C6 (amended)**: emergency_replace marks the original shift
Emergency-Reassigned, persists a new Active shift from `now` to the
original's end_time owned by the new caregiver with exactly the
original's recipient list, returns both identities, and upserts — for
every recipient of the original shift — a summary computed against the
original shift, whose aggregates read the logs of the elapsed window
closed at both ends, shift.start_time ≤ created_at ≤ now (by the
definition of summaryContentFor/logsFor), not the half-open
[start_time, now). -/
theorem emergency_replace_spec (db : DB) (sid ncg : Nat) (r : String) (now p : Nat)
    (orig : Shift)
    (hfind : db.shifts.find? (fun s => s.id == sid) = some orig)
    (hinv : AtMostOnePerKey db.summaries)
    (hp : p ∈ orig.assigned_pwids) :
    (emergency_replace db sid ncg r now).2 =
      EmergencyReplaceResult.replaced orig.id db.next_shift_id ∧
    (emergency_replace db sid ncg r now).1.shifts =
      db.shifts.map (fun s =>
        if s.id = sid then { s with status := "Emergency-Reassigned" } else s) ++
      [{ id := db.next_shift_id, type := orig.type, start_time := now,
         end_time := orig.end_time, caregiver_id := ncg, status := "Active",
         assigned_pwids := orig.assigned_pwids }] ∧
    (∃ h, summariesFor (emergency_replace db sid ncg r now).1.summaries
        orig.id p = [h] ∧
      h.content = summaryContentFor db
        { orig with status := "Emergency-Reassigned" } p now) := by
  have hid : orig.id = sid := by simpa using List.find?_some hfind
  subst hid
  rw [emergency_replace_found db orig.id ncg r now orig hfind]
  refine ⟨rfl, ?_, ?_⟩
  · exact (generate_frame _ orig.id now).1
  · have hfind1 : ((db.shifts.map (fun s : Shift =>
        if s.id = orig.id then { s with status := "Emergency-Reassigned" } else s)) ++
        ([{ id := db.next_shift_id, type := orig.type, start_time := now,
            end_time := orig.end_time, caregiver_id := ncg, status := "Active",
            assigned_pwids := orig.assigned_pwids }] : List Shift)).find?
          (fun s => s.id == orig.id) =
        some { orig with status := "Emergency-Reassigned" } := by
      rw [List.find?_append, find?_map_setStatus, hfind]
      rfl
    rw [generate_found _ orig.id now _ hfind1]
    dsimp only
    obtain ⟨h, hrow, hcont⟩ := processRecipients_row
      { orig with status := "Emergency-Reassigned" } now
      orig.assigned_pwids
      { db with
          shifts := db.shifts.map (fun s =>
            if s.id = orig.id then { s with status := "Emergency-Reassigned" } else s) ++
            [{ id := db.next_shift_id, type := orig.type, start_time := now,
               end_time := orig.end_time, caregiver_id := ncg, status := "Active",
               assigned_pwids := orig.assigned_pwids }]
          next_shift_id := db.next_shift_id + 1 }
      p hinv hp
    refine ⟨h, hrow, ?_⟩
    rw [hcont]
    exact summaryContentFor_congr _ db _ p now rfl rfl

/-- Witness for the amended C6 on the concrete store. -/
theorem emergency_replace_spec_witness :
    (emergency_replace exDB8 1 2 "sick" 50).2 =
      EmergencyReplaceResult.replaced exShift8.id exDB8.next_shift_id ∧
    (emergency_replace exDB8 1 2 "sick" 50).1.shifts =
      exDB8.shifts.map (fun s =>
        if s.id = 1 then { s with status := "Emergency-Reassigned" } else s) ++
      [{ id := exDB8.next_shift_id, type := exShift8.type, start_time := 50,
         end_time := exShift8.end_time, caregiver_id := 2, status := "Active",
         assigned_pwids := exShift8.assigned_pwids }] ∧
    (∃ h, summariesFor (emergency_replace exDB8 1 2 "sick" 50).1.summaries
        exShift8.id 7 = [h] ∧
      h.content = summaryContentFor exDB8
        { exShift8 with status := "Emergency-Reassigned" } 7 50) :=
  emergency_replace_spec exDB8 1 2 "sick" 50 7 exShift8 (by decide)
    (by intro sid pid; simp [AtMostOnePerKey, summariesFor, exDB8])
    (by decide)

/-! ## C8: risk level and justification -/

/-- **C8**: the risk dict returned by calculate_trend_risk exposes its
justification text under the key "reason" and has no "justification" key,
so the generator's risk.get('justification','') stores the empty string
in every summary, while risk_level is copied verbatim; the empty-log
result is the stable Low/no-data record with a non-empty reason that is
nevertheless not copied. -/
theorem risk_justification_never_copied :
    (∀ (db : DB) (shift : Shift) (pid now : Nat),
      (summaryContentFor db shift pid now).risk_justification = "" ∧
      (summaryContentFor db shift pid now).risk_level =
        (calculate_trend_risk (logsFor db pid shift.start_time now)).level) ∧
    (calculate_trend_risk []).level = "Low" ∧
    (calculate_trend_risk []).score = 0 ∧
    (calculate_trend_risk []).reason = "No recent logs to analyze." ∧
    TrendRisk.get (calculate_trend_risk []) "justification" "" = "" ∧
    (calculate_trend_risk []).reason ≠ "" ∧
    (end_shift exDB9 1 50).1.summaries.map
      (fun h => (h.content.risk_level, h.content.risk_justification)) =
      [("Low", "")] := by
  refine ⟨fun db shift pid now => ⟨rfl, rfl⟩, rfl, rfl, rfl, rfl, by decide, rfl⟩

/-! ### Sanity checks on the three-case filter -/

example :
    caregiverOverlapCheck
      { id := 1, type := "Day", start_time := 600, end_time := 1080,
        caregiver_id := 1, status := "Scheduled", assigned_pwids := [] }
      1020 1200 = true := by decide

example :
    caregiverOverlapCheck
      { id := 1, type := "Day", start_time := 600, end_time := 1080,
        caregiver_id := 1, status := "Scheduled", assigned_pwids := [] }
      1080 1200 = false := by decide

end CTC
